import Mathlib

/-!
Shallow embedding of the azure-queue-consumer package (src/index.js), a
polling consumer for an Azure storage queue.  The embedding has three
layers, each translated directly from the source:

* configuration validation and constructor defaulting
  (`validate`, `Consumer.construct`, translated from `validate` and the
  `Consumer` constructor, src/index.js lines 20-57);
* per-message processing as a pure function over the handler outcome and
  the delete-call outcome (`processMessage`, `deleteMessage`, translated
  from `_processMessage` / `_deleteMessage`, lines 117-155);
* the poll loop as a small-step machine over an explicit scheduler state
  (`LoopState`, `step`, `run`), modelling `start` / `stop` / `_poll` /
  `_handleQueueServiceResponse` (lines 63-115): pending `getMessages`
  callbacks, pending `setTimeout(_poll, ...)` timers, and the
  per-batch fan-in counter maintained by `async.each`.

JavaScript values are modelled as follows: `undefined` option fields are
`Option.none`; numeric falsiness is `= 0`; string falsiness is `= ""`;
`err.name === QueueServiceError.name` is string equality.
-/

namespace AzureQueueConsumer

/-- A queue message as used by the source: `message.messageId` and
`message.popReceipt` are passed to `deleteMessage`; the text is opaque. -/
structure Msg where
  messageId : String
  popReceipt : String
  messageText : String
deriving DecidableEq, Repr

/-- A JavaScript `Error`-like value: `name` (used for classification by
`err.name === QueueServiceError.name`), `message`, and the fields read by
`isAuthenticationError` (`statusCode`, `code`); absent fields are `none`. -/
structure JSError where
  name : String
  message : String
  statusCode : Option Int := none
  code : Option String := none
deriving DecidableEq, Repr

/-- Model of `new QueueServiceError(msg)` (src/index.js lines 13-18): an `Error`
whose `name` is the class name, i.e. the string `QueueServiceError`. -/
def queueServiceError (msg : String) : JSError :=
  { name := "QueueServiceError", message := msg }

/-- Translation of `isAuthenticationError` (src/index.js lines 32-34):
`err.statusCode === 403 || err.code === CredentialsError`. -/
def isAuthenticationError (err : JSError) : Bool :=
  err.statusCode == some (403 : Int) || err.code == some "CredentialsError"

/-- The options object passed to the `Consumer` constructor.  `none` is an
absent (`undefined`) field.  `handleMessage` is `true` when a (truthy)
handler function was supplied; the handler behaviour itself is a parameter
of `processMessage` below. -/
structure Options where
  queueName : Option String := none
  handleMessage : Bool := false
  batchSize : Option Int := none
  pollDelaySeconds : Option Int := none
  maximumExecutionTimeSeconds : Option Int := none
  authenticationErrorTimeoutSeconds : Option Int := none
deriving DecidableEq, Repr

/-- JavaScript truthiness of a possibly-absent string: `undefined` and the
empty string are falsy. -/
def jsTruthyStr : Option String → Bool
  | none => false
  | some s => !(s == "")

/-- Translation of `validate(options)` (src/index.js lines 20-30).  Checks the required
options `queueName` and `handleMessage` with JS truthiness (`!options[o]`),
then `options.batchSize > 10 || options.batchSize < 1`; both comparisons
are false when `batchSize` is `undefined`, so an absent `batchSize`
passes. -/
def validate (o : Options) : Except String Unit :=
  if !(jsTruthyStr o.queueName) then
    Except.error "Missing queue service consumer option [queueName]."
  else if !o.handleMessage then
    Except.error "Missing queue service consumer option [handleMessage]."
  else
    match o.batchSize with
    | some b =>
        if b > 10 ∨ b < 1 then
          Except.error "Queue batchSize option must be between 1 and 10."
        else Except.ok ()
    | none => Except.ok ()

/-- The configuration fields stored on a successfully constructed
`Consumer` (src/index.js lines 41-52), after defaulting with `||`. -/
structure ConsumerConfig where
  queueName : String
  batchSize : Int
  pollDelaySeconds : Int
  maximumExecutionTimeSeconds : Int
  authenticationErrorTimeoutSeconds : Int
deriving DecidableEq, Repr

/-- JavaScript `v || d` for a possibly-absent number: `undefined` and `0`
are falsy and give the default. -/
def jsOr (v : Option Int) (d : Int) : Int :=
  match v with
  | some x => if x == 0 then d else x
  | none => d

/-- The `Consumer` constructor (src/index.js lines 37-57): runs `validate`
first (throwing before any state is initialised), then stores the
configuration with `||`-defaults: `batchSize || 1`, `pollDelaySeconds || 1`,
`maximumExecutionTimeSeconds || 10`,
`authenticationErrorTimeoutSeconds || 10`. -/
def Consumer.construct (o : Options) : Except String ConsumerConfig :=
  match validate o with
  | Except.error e => Except.error e
  | Except.ok _ =>
      Except.ok
        { queueName := o.queueName.getD ""
          batchSize := jsOr o.batchSize 1
          pollDelaySeconds := jsOr o.pollDelaySeconds 1
          maximumExecutionTimeSeconds := jsOr o.maximumExecutionTimeSeconds 10
          authenticationErrorTimeoutSeconds := jsOr o.authenticationErrorTimeoutSeconds 10 }

/-- Returns `true` exactly when the constructor does not throw. -/
def constructSucceeds (o : Options) : Bool :=
  match Consumer.construct o with
  | Except.ok _ => true
  | Except.error _ => false

/-- A sample options object configuring 0 for every delay/time option. -/
def optsAllZero : Options :=
  { queueName := some "q", handleMessage := true, pollDelaySeconds := some 0,
    maximumExecutionTimeSeconds := some 0, authenticationErrorTimeoutSeconds := some 0 }

/-- The configuration the constructor produces from `optsAllZero`. -/
def cfgAllZero : ConsumerConfig :=
  { queueName := "q", batchSize := 1, pollDelaySeconds := 1,
    maximumExecutionTimeSeconds := 10, authenticationErrorTimeoutSeconds := 10 }

/-!  Per-message processing (`_processMessage` / `_deleteMessage`,
src/index.js lines 117-155).  For one message the externally determined
data are the handler outcome (it may throw synchronously, report an error
through its `done` callback, or succeed) and, if the delete call is
reached, the outcome of `queueService.deleteMessage`.  `_processMessage`
runs `async.series [handleMessage, deleteMessage]`, which stops at the
first step that reports an error.  -/

/-- How the user-supplied `handleMessage(message, done)` behaves on one
invocation. -/
inductive HandlerOutcome
  | hThrow (errMessage : String)
  | hCallback (err : JSError)
  | hOk
deriving DecidableEq, Repr

/-- The per-message signals emitted by `_processMessage`, with their
payloads. -/
inductive PEvent
  | message_received (m : Msg)
  | error (err : JSError) (m : Msg)
  | processing_error (err : JSError) (m : Msg)
  | message_processed (m : Msg)
deriving DecidableEq, Repr

/-- Translation of `_deleteMessage` (src/index.js lines 147-155): calls
`queueService.deleteMessage` and wraps a failure `err` into
`new QueueServiceError(... + err.message)`; argument is the transport
outcome of the delete call (`none` = success). -/
def deleteMessage (deleteErr : Option JSError) : Option JSError :=
  match deleteErr with
  | some err =>
      some (queueServiceError ("Queue service delete message failed: " ++ err.message))
  | none => none

/-- Translation of `_processMessage` (src/index.js lines 117-145).  Emits
`message_received`, then runs the handler (a synchronous throw is caught
and wrapped as `new Error("Unexpected message handler failure: " ...)`),
then — only if the handler reported no error — the delete step.  The final
`async.series` callback classifies the resulting error by
`err.name === QueueServiceError.name`.  Returns
(whether the delete call was made, the emitted signals in order). -/
def processMessage (m : Msg) (handler : HandlerOutcome) (deleteErr : Option JSError) :
    Bool × List PEvent :=
  let seriesResult : Bool × Option JSError :=
    match handler with
    | .hThrow t =>
        (false, some { name := "Error", message := "Unexpected message handler failure: " ++ t })
    | .hCallback e => (false, some e)
    | .hOk => (true, deleteMessage deleteErr)
  let outcome : List PEvent :=
    match seriesResult.2 with
    | some e =>
        if e.name == "QueueServiceError" then [PEvent.error e m]
        else [PEvent.processing_error e m]
    | none => [PEvent.message_processed m]
  (seriesResult.1, PEvent.message_received m :: outcome)

/-- Holds `true` on the per-message signals that resolve a message (exactly one
of `error`, `processing_error`, `message_processed`). -/
def isTerminalOutcome : PEvent → Bool
  | .message_received _ => false
  | .error _ _ => true
  | .processing_error _ _ => true
  | .message_processed _ => true

/-!  The poll loop as a small-step machine.  A `LoopState` carries the
`stopped` flag, the number of outstanding `getMessages` callbacks
(`pendingFetch`), the delays (in milliseconds, as passed to `setTimeout`)
of the pending `setTimeout(_poll, ...)` timers, and, for each in-flight
batch, how many of its messages have not yet called their `async.each`
callback.  Actions are the points where the JavaScript event loop runs a
piece of this program: the owner calling `start` or `stop`, a
`getMessages` callback firing, one message of a batch resolving
(`async.each`'s per-item callback, i.e. the `cb()` at the end of
`_processMessage`), and a pending timer firing.  -/

/-- The loop-level signals. -/
inductive Event
  | error (err : JSError)
  | message_received
  | response_processed
  | stopped
deriving DecidableEq, Repr

/-- The scheduler-visible state of one `Consumer`. -/
structure LoopState where
  stopped : Bool
  pendingFetch : Nat
  timers : List Int
  batches : List Nat
  pollDelaySeconds : Int
  authenticationErrorTimeoutSeconds : Int
deriving DecidableEq, Repr

/-- The state of a freshly constructed consumer: `this.stopped = true`
(src/index.js line 45), nothing pending. -/
def initialLoopState (c : ConsumerConfig) : LoopState :=
  { stopped := true
    pendingFetch := 0
    timers := []
    batches := []
    pollDelaySeconds := c.pollDelaySeconds
    authenticationErrorTimeoutSeconds := c.authenticationErrorTimeoutSeconds }

/-- Translation of `_poll` (src/index.js lines 76-89): if not stopped, issue one
`getMessages` call; otherwise emit `stopped` (and issue nothing). -/
def poll (s : LoopState) : LoopState × List Event :=
  if s.stopped then (s, [Event.stopped])
  else ({ s with pendingFetch := s.pendingFetch + 1 }, [])

/-- The signals emitted at the top of `_handleQueueServiceResponse`: a
fetch error `err` is wrapped into a `QueueServiceError` and emitted as one
`error` signal (src/index.js lines 94-96). -/
def fetchErrorEvents : Option JSError → List Event
  | some e =>
      [Event.error (queueServiceError ("Queue service receive message failed: " ++ e.message))]
  | none => []

/-- Translation of `_handleQueueServiceResponse` (src/index.js lines 91-115), run when a
`getMessages` callback fires with `(err, response)`.  An error always
emits one `error` signal wrapping the failure in a `QueueServiceError`.
If the response holds at least one message, `async.each` starts
`_processMessage` on every message (each of which emits
`message_received` at once) and the batch counter is recorded; no timer is
set.  Otherwise a `setTimeout(_poll, ...)` is scheduled: with
`authenticationErrorTimeoutSeconds * 1000` when the error is an
authentication error, else with `pollDelaySeconds * 1000`. -/
def handleQueueServiceResponse (s : LoopState) (err : Option JSError)
    (response : Option (List Msg)) : LoopState × List Event :=
  let emptyCase : LoopState × List Event :=
    match err with
    | some e =>
        if isAuthenticationError e then
          ({ s with timers := s.timers ++ [s.authenticationErrorTimeoutSeconds * 1000] },
            fetchErrorEvents err)
        else
          ({ s with timers := s.timers ++ [s.pollDelaySeconds * 1000] }, fetchErrorEvents err)
    | none => ({ s with timers := s.timers ++ [s.pollDelaySeconds * 1000] }, fetchErrorEvents err)
  match response with
  | some msgs =>
      if msgs.length > 0 then
        ({ s with batches := s.batches ++ [msgs.length] },
          fetchErrorEvents err ++ msgs.map (fun _ => Event.message_received))
      else emptyCase
  | none => emptyCase

/-- One message of batch `b` resolves (`cb()` at the end of
`_processMessage`).  When it is that batch's last unresolved message,
`async.each`'s final callback runs: emit `response_processed` and call
`_poll` (src/index.js lines 102-106). -/
def resolveMessageStep (s : LoopState) (b : Nat) : LoopState × List Event :=
  match s.batches.get? b with
  | none => (s, [])
  | some n =>
      if n ≤ 1 then
        let r := poll { s with batches := s.batches.eraseIdx b }
        (r.1, Event.response_processed :: r.2)
      else
        ({ s with batches := s.batches.set b (n - 1) }, [])

/-- Pending timer `i` fires: its callback is `this._poll.bind(this)`
(src/index.js lines 110 and 113). -/
def fireTimerStep (s : LoopState) (i : Nat) : LoopState × List Event :=
  match s.timers.get? i with
  | none => (s, [])
  | some _ => poll { s with timers := s.timers.eraseIdx i }

/-- The schedulable actions. -/
inductive Action
  | start
  | stop
  | fetchComplete (err : Option JSError) (response : Option (List Msg))
  | resolveMessage (b : Nat)
  | fireTimer (i : Nat)
deriving DecidableEq, Repr

/-- One scheduler step.  `start` (src/index.js lines 63-69) does nothing
unless `stopped`; otherwise it clears the flag and calls `_poll`.  `stop`
(lines 71-74) sets the flag.  A `fetchComplete` action consumes one
outstanding `getMessages` callback; the other actions are no-ops unless
the corresponding pending item exists. -/
def step (s : LoopState) : Action → LoopState × List Event
  | .start =>
      if s.stopped then poll { s with stopped := false } else (s, [])
  | .stop => ({ s with stopped := true }, [])
  | .fetchComplete err response =>
      if s.pendingFetch > 0 then
        handleQueueServiceResponse { s with pendingFetch := s.pendingFetch - 1 } err response
      else (s, [])
  | .resolveMessage b => resolveMessageStep s b
  | .fireTimer i => fireTimerStep s i

/-- Run a sequence of actions, collecting the emitted signals. -/
def run (s : LoopState) : List Action → LoopState × List Event
  | [] => (s, [])
  | a :: rest =>
      let r := step s a
      let r2 := run r.1 rest
      (r2.1, r.2 ++ r2.2)

/-- A sample configuration with all defaults. -/
def sampleConfig : ConsumerConfig :=
  { queueName := "queue", batchSize := 1, pollDelaySeconds := 1,
    maximumExecutionTimeSeconds := 10, authenticationErrorTimeoutSeconds := 10 }

/-- A sample stopped state with one pending delay timer. -/
def sampleStopped : LoopState :=
  { stopped := true, pendingFetch := 0, timers := [1000], batches := [],
    pollDelaySeconds := 1, authenticationErrorTimeoutSeconds := 10 }

/-- A sample running state with one outstanding fetch. -/
def sampleRunning : LoopState :=
  { stopped := false, pendingFetch := 1, timers := [], batches := [],
    pollDelaySeconds := 1, authenticationErrorTimeoutSeconds := 10 }

/-- A sample running state with one in-flight batch of 3 messages. -/
def sampleBatchState : LoopState :=
  { stopped := false, pendingFetch := 0, timers := [], batches := [3],
    pollDelaySeconds := 1, authenticationErrorTimeoutSeconds := 10 }

/-- A sample authentication failure of the queue service (HTTP 403). -/
def err403 : JSError :=
  { name := "StorageError", message := "forbidden", statusCode := some 403 }

/-- A sample non-authentication failure of the queue service. -/
def err500 : JSError :=
  { name := "StorageError", message := "unavailable", statusCode := some 500 }

/-- A sample message. -/
def sampleMsg : Msg := { messageId := "m-1", popReceipt := "r-1", messageText := "hello" }

/-!  Helper lemmas (shared; not claim theorems).  -/

theorem validate_ok_iff (o : Options) :
    validate o = Except.ok () ↔
      (jsTruthyStr o.queueName = true ∧ o.handleMessage = true ∧
        ∀ b : Int, o.batchSize = some b → 1 ≤ b ∧ b ≤ 10) := by
  cases hq : jsTruthyStr o.queueName <;> cases hh : o.handleMessage <;>
    cases hb : o.batchSize <;> simp [validate, hq, hh, hb]
  omega

theorem construct_ok_config (o : Options) (c : ConsumerConfig)
    (hc : Consumer.construct o = Except.ok c) :
    c = { queueName := o.queueName.getD ""
          batchSize := jsOr o.batchSize 1
          pollDelaySeconds := jsOr o.pollDelaySeconds 1
          maximumExecutionTimeSeconds := jsOr o.maximumExecutionTimeSeconds 10
          authenticationErrorTimeoutSeconds := jsOr o.authenticationErrorTimeoutSeconds 10 } := by
  unfold Consumer.construct at hc
  cases hv : validate o with
  | error e => rw [hv] at hc; cases hc
  | ok u => rw [hv] at hc; cases hc; rfl

theorem constructSucceeds_iff_validate (o : Options) :
    constructSucceeds o = true ↔ validate o = Except.ok () := by
  unfold constructSucceeds Consumer.construct
  cases hv : validate o with
  | error e => simp [hv]
  | ok u => cases u; simp [hv]

theorem jsOr_falsy (v : Option Int) (d : Int) (h : v = some 0 ∨ v = none) :
    jsOr v d = d := by
  rcases h with h | h <;> rw [h] <;> simp [jsOr]

theorem jsOr_ne_zero (v : Option Int) (d : Int) (hd : d ≠ 0) : jsOr v d ≠ 0 := by
  cases v with
  | none => simpa [jsOr] using hd
  | some x =>
      by_cases hx : x = 0
      · simpa [jsOr, hx] using hd
      · simp [jsOr, hx]

/-!  Claim theorems.  -/

/-- C7 (counterexample): construction also fails when `queueName` is
supplied but empty — the constructor checks JS truthiness, not absence.
Here `queueName` is present (`some ""`), a handler is supplied, and
`batchSize = 5` lies inside `[1,10]`, yet construction throws; so
"construction fails exactly when `queueName` is absent, the handler is
absent, or `batchSize` lies outside `[1,10]`" is false as stated. -/
theorem c7_counterexample :
    Consumer.construct { queueName := some "", handleMessage := true, batchSize := some 5 } =
      Except.error "Missing queue service consumer option [queueName]." ∧
    ({ queueName := some "", handleMessage := true, batchSize := some 5 } : Options).queueName ≠
      none ∧
    ({ queueName := some "", handleMessage := true, batchSize := some 5 } : Options).handleMessage
      = true ∧
    ¬((5 : Int) > 10 ∨ (5 : Int) < 1) :=
  ⟨rfl, by decide, rfl, by decide⟩

/-- C7 (amended): construction fails exactly when `queueName` is absent or
empty (falsy), the handler is absent, or a supplied `batchSize` lies
outside `[1,10]`; otherwise construction succeeds, and an absent option
gets its default (`batchSize = 1`, `pollDelaySeconds = 1`,
`maximumExecutionTimeSeconds = 10`,
`authenticationErrorTimeoutSeconds = 10`). -/
theorem c7_construction_amended : ∀ o : Options,
    (constructSucceeds o = true ↔
      (jsTruthyStr o.queueName = true ∧ o.handleMessage = true ∧
        ∀ b : Int, o.batchSize = some b → 1 ≤ b ∧ b ≤ 10)) ∧
    (∀ c, Consumer.construct o = Except.ok c →
      (o.batchSize = none → c.batchSize = 1) ∧
      (o.pollDelaySeconds = none → c.pollDelaySeconds = 1) ∧
      (o.maximumExecutionTimeSeconds = none → c.maximumExecutionTimeSeconds = 10) ∧
      (o.authenticationErrorTimeoutSeconds = none → c.authenticationErrorTimeoutSeconds = 10)) := by
  intro o
  constructor
  · rw [constructSucceeds_iff_validate]
    exact validate_ok_iff o
  · intro c hc
    rw [construct_ok_config o c hc]
    refine ⟨fun h => ?_, fun h => ?_, fun h => ?_, fun h => ?_⟩ <;>
      simp [jsOr_falsy _ _ (Or.inr h)]

/-- C7 (witness for the amended theorem): a configuration with a queue
name and a handler and everything else absent constructs successfully with
all defaults. -/
theorem c7_construction_amended_witness :
    constructSucceeds { queueName := some "q", handleMessage := true } = true ∧
    ({ queueName := "q", batchSize := 1, pollDelaySeconds := 1,
       maximumExecutionTimeSeconds := 10,
       authenticationErrorTimeoutSeconds := 10 } : ConsumerConfig).batchSize = 1 := by
  have h := c7_construction_amended { queueName := some "q", handleMessage := true }
  refine ⟨h.1.mpr ⟨rfl, rfl, by simp⟩, ?_⟩
  exact (h.2 _ rfl).1 rfl

/-- C10: a falsy configured value (0 or absent) for `pollDelaySeconds`,
`maximumExecutionTimeSeconds` or `authenticationErrorTimeoutSeconds` is
silently replaced by its default (1, 10, 10), so a zero delay or zero
execution-time bound cannot be configured; a falsy `batchSize` that
survives validation (an absent one) falls back to 1. -/
theorem c10_falsy_defaults : ∀ (o : Options) (c : ConsumerConfig),
    Consumer.construct o = Except.ok c →
    ((o.pollDelaySeconds = some 0 ∨ o.pollDelaySeconds = none) → c.pollDelaySeconds = 1) ∧
    ((o.maximumExecutionTimeSeconds = some 0 ∨ o.maximumExecutionTimeSeconds = none) →
      c.maximumExecutionTimeSeconds = 10) ∧
    ((o.authenticationErrorTimeoutSeconds = some 0 ∨
        o.authenticationErrorTimeoutSeconds = none) →
      c.authenticationErrorTimeoutSeconds = 10) ∧
    c.pollDelaySeconds ≠ 0 ∧ c.maximumExecutionTimeSeconds ≠ 0 ∧
    c.authenticationErrorTimeoutSeconds ≠ 0 ∧
    ((o.batchSize = some 0 ∨ o.batchSize = none) → c.batchSize = 1) := by
  intro o c hc
  rw [construct_ok_config o c hc]
  refine ⟨fun h => by simp [jsOr_falsy _ _ h], fun h => by simp [jsOr_falsy _ _ h],
    fun h => by simp [jsOr_falsy _ _ h], ?_, ?_, ?_, fun h => by simp [jsOr_falsy _ _ h]⟩ <;>
      exact jsOr_ne_zero _ _ (by decide)

/-- C10 (witness): configuring 0 for all three delay/time options yields
the defaults 1, 10 and 10, and an absent `batchSize` yields 1. -/
theorem c10_falsy_defaults_witness :
    cfgAllZero.pollDelaySeconds = 1 ∧ cfgAllZero.maximumExecutionTimeSeconds = 10 ∧
    cfgAllZero.authenticationErrorTimeoutSeconds = 10 ∧ cfgAllZero.batchSize = 1 := by
  have h := c10_falsy_defaults optsAllZero cfgAllZero rfl
  exact ⟨h.1 (Or.inl rfl), h.2.1 (Or.inl rfl), h.2.2.1 (Or.inl rfl),
    h.2.2.2.2.2.2 (Or.inr rfl)⟩

/-- C1 (counterexample): a handler that reports (through its callback) an
error whose `name` is `QueueServiceError` makes the consumer emit `error`,
not `processing_error`, so "if the handler fails ... a processing_error
signal is emitted" is false as stated (the delete call is still skipped). -/
theorem c1_counterexample :
    processMessage { messageId := "m-1", popReceipt := "r-1", messageText := "hello" }
        (HandlerOutcome.hCallback (queueServiceError "boom")) none =
      (false,
        [PEvent.message_received { messageId := "m-1", popReceipt := "r-1", messageText := "hello" },
         PEvent.error (queueServiceError "boom")
           { messageId := "m-1", popReceipt := "r-1", messageText := "hello" }]) :=
  rfl

/-- C1 (amended): per-message outcome classification, restricted on the
handler-failure branch to errors not named `QueueServiceError` (every
synchronous throw is wrapped as a generic `Error`, so it always falls in
that branch): such a handler failure skips the delete call and emits
`processing_error` with the error and the message; a successful handler
with a failing delete call emits `error` carrying the wrapped delete
failure and the message; success of both emits `message_processed`. -/
theorem c1_outcome_classification : ∀ (m : Msg) (d : Option JSError),
    (∀ t, processMessage m (HandlerOutcome.hThrow t) d =
      (false,
        [PEvent.message_received m,
         PEvent.processing_error
           { name := "Error", message := "Unexpected message handler failure: " ++ t } m])) ∧
    (∀ e : JSError, e.name ≠ "QueueServiceError" →
      processMessage m (HandlerOutcome.hCallback e) d =
        (false, [PEvent.message_received m, PEvent.processing_error e m])) ∧
    (∀ e : JSError, processMessage m HandlerOutcome.hOk (some e) =
      (true,
        [PEvent.message_received m,
         PEvent.error
           (queueServiceError ("Queue service delete message failed: " ++ e.message)) m])) ∧
    processMessage m HandlerOutcome.hOk none =
      (true, [PEvent.message_received m, PEvent.message_processed m]) := by
  intro m d
  refine ⟨fun t => rfl, fun e he => ?_, fun e => rfl, rfl⟩
  simp only [processMessage]
  rw [if_neg (by simpa using he)]

/-- C1 (witness): a handler failing with a plain error skips deletion and
yields `processing_error`. -/
theorem c1_outcome_classification_witness :
    processMessage { messageId := "m-1", popReceipt := "r-1", messageText := "hello" }
        (HandlerOutcome.hCallback { name := "Boom", message := "bad payload" }) none =
      (false,
        [PEvent.message_received { messageId := "m-1", popReceipt := "r-1", messageText := "hello" },
         PEvent.processing_error { name := "Boom", message := "bad payload" }
           { messageId := "m-1", popReceipt := "r-1", messageText := "hello" }]) := by
  exact (c1_outcome_classification
      { messageId := "m-1", popReceipt := "r-1", messageText := "hello" } none).2.1
    { name := "Boom", message := "bad payload" } (by decide)

/-- C9: the `error` / `processing_error` choice is made purely by string
comparison of the final error's `name` against `QueueServiceError`: any
handler-reported (callback) error named `QueueServiceError` is emitted as
`error` (with the error and the message), never as `processing_error`,
even though it did not come from the queue service. -/
theorem c9_error_name_classification : ∀ (m : Msg) (e : JSError) (d : Option JSError),
    e.name = "QueueServiceError" →
    processMessage m (HandlerOutcome.hCallback e) d =
      (false, [PEvent.message_received m, PEvent.error e m]) := by
  intro m e d he
  simp only [processMessage]
  rw [if_pos (by simpa using he)]

/-- C9 (witness): the classification at a concrete handler-reported error
named `QueueServiceError`. -/
theorem c9_error_name_classification_witness :
    processMessage { messageId := "m-2", popReceipt := "r-2", messageText := "x" }
        (HandlerOutcome.hCallback { name := "QueueServiceError", message := "fake" }) none =
      (false,
        [PEvent.message_received { messageId := "m-2", popReceipt := "r-2", messageText := "x" },
         PEvent.error { name := "QueueServiceError", message := "fake" }
           { messageId := "m-2", popReceipt := "r-2", messageText := "x" }]) := by
  exact c9_error_name_classification { messageId := "m-2", popReceipt := "r-2", messageText := "x" }
    { name := "QueueServiceError", message := "fake" } none rfl

theorem handleQSR_preserves (s : LoopState) (err : Option JSError)
    (resp : Option (List Msg)) :
    (handleQueueServiceResponse s err resp).1.pendingFetch = s.pendingFetch ∧
    (handleQueueServiceResponse s err resp).1.stopped = s.stopped := by
  unfold handleQueueServiceResponse
  cases resp <;> cases err <;> dsimp only <;>
    (first
      | exact ⟨rfl, rfl⟩
      | (split_ifs <;> exact ⟨rfl, rfl⟩))

theorem resolveMessageStep_some (s : LoopState) (b n : Nat)
    (hb : s.batches.get? b = some n) :
    resolveMessageStep s b =
      if n ≤ 1 then
        ((poll { s with batches := s.batches.eraseIdx b }).1,
          Event.response_processed :: (poll { s with batches := s.batches.eraseIdx b }).2)
      else ({ s with batches := s.batches.set b (n - 1) }, []) := by
  unfold resolveMessageStep
  rw [hb]

theorem poll_of_stopped (s : LoopState) (h : s.stopped = true) :
    poll s = (s, [Event.stopped]) := by
  simp [poll, h]

theorem poll_of_running (s : LoopState) (h : s.stopped = false) :
    poll s = ({ s with pendingFetch := s.pendingFetch + 1 }, []) := by
  simp [poll, h]

/-- C2: on a fetch completion with zero messages (an absent or empty
response): with an authentication error (status 403 or code
`CredentialsError`) exactly one `error` signal is emitted and the only
thing scheduled is one `_poll` timer with delay
`authenticationErrorTimeoutSeconds * 1000` ms; otherwise (no error, or a
non-authentication error) the scheduled timer delay is
`pollDelaySeconds * 1000` ms.  Firing such a pending timer on a running
consumer issues exactly one fetch. -/
theorem c2_empty_fetch_backoff : ∀ (s : LoopState) (err : Option JSError)
    (response : Option (List Msg)),
    0 < s.pendingFetch → (response = none ∨ response = some []) →
    (∀ e, err = some e → isAuthenticationError e = true →
      step s (Action.fetchComplete err response) =
        ({ s with pendingFetch := s.pendingFetch - 1,
                  timers := s.timers ++ [s.authenticationErrorTimeoutSeconds * 1000] },
          [Event.error
            (queueServiceError ("Queue service receive message failed: " ++ e.message))])) ∧
    ((err = none ∨ ∃ e, err = some e ∧ isAuthenticationError e = false) →
      step s (Action.fetchComplete err response) =
        ({ s with pendingFetch := s.pendingFetch - 1,
                  timers := s.timers ++ [s.pollDelaySeconds * 1000] },
          fetchErrorEvents err)) ∧
    (∀ (s2 : LoopState) (i : Nat) (d : Int), s2.stopped = false → s2.timers.get? i = some d →
      step s2 (Action.fireTimer i) =
        ({ s2 with timers := s2.timers.eraseIdx i, pendingFetch := s2.pendingFetch + 1 },
          [])) := by
  intro s err response hp hresp
  refine ⟨?_, ?_, ?_⟩
  · rintro e rfl ha
    rcases hresp with rfl | rfl <;>
      · simp only [step]
        rw [if_pos hp]
        simp [handleQueueServiceResponse, ha, fetchErrorEvents]
  · rintro (rfl | ⟨e, rfl, hna⟩) <;> rcases hresp with rfl | rfl <;>
      · simp only [step]
        rw [if_pos hp]
        simp [handleQueueServiceResponse, fetchErrorEvents]
        try simp [hna]
  · intro s2 i d hs hd
    have h2 : ({ s2 with timers := s2.timers.eraseIdx i } : LoopState).stopped = false := hs
    simp only [step, fireTimerStep, hd, poll_of_running _ h2]

/-- C2 (witness): a 403 fetch error with no messages, from a running state
with the default configuration, emits one `error` and schedules a 10000 ms
timer; no error with an empty response schedules a 1000 ms timer. -/
theorem c2_empty_fetch_backoff_witness :
    step sampleRunning (Action.fetchComplete (some err403) none) =
      ({ sampleRunning with pendingFetch := 0, timers := [10000] },
        [Event.error
          (queueServiceError "Queue service receive message failed: forbidden")]) ∧
    step sampleRunning (Action.fetchComplete none (some [])) =
      ({ sampleRunning with pendingFetch := 0, timers := [1000] }, []) := by
  constructor
  · exact (c2_empty_fetch_backoff sampleRunning (some err403) none (by decide)
      (Or.inl rfl)).1 err403 rfl (by decide)
  · exact (c2_empty_fetch_backoff sampleRunning none (some []) (by decide)
      (Or.inr rfl)).2.1 (Or.inl rfl)

/-- C8: a fetch completion carrying at least one message dispatches the
batch (its fan-in counter is recorded and every message emits
`message_received`) even when the fetch also reported an error (which
still emits its `error` signal first); no delayed-repoll timer is set and
the rest of the state is untouched. -/
theorem c8_messages_priority : ∀ (s : LoopState) (err : Option JSError) (msgs : List Msg),
    0 < s.pendingFetch → msgs ≠ [] →
    step s (Action.fetchComplete err (some msgs)) =
      ({ s with pendingFetch := s.pendingFetch - 1, batches := s.batches ++ [msgs.length] },
        fetchErrorEvents err ++ msgs.map (fun _ => Event.message_received)) := by
  intro s err msgs hp hne
  have hlen : 0 < msgs.length := List.length_pos.mpr hne
  simp only [step]
  rw [if_pos hp]
  simp [handleQueueServiceResponse, hlen]

/-- C8 (witness): a batch of two messages arriving together with a
(non-authentication) fetch error is still dispatched: the error is
emitted, both messages are received, and no timer is scheduled. -/
theorem c8_messages_priority_witness :
    step sampleRunning (Action.fetchComplete (some err500) (some [sampleMsg, sampleMsg])) =
      ({ sampleRunning with pendingFetch := 0, batches := [2] },
        [Event.error (queueServiceError "Queue service receive message failed: unavailable"),
          Event.message_received, Event.message_received]) := by
  exact c8_messages_priority sampleRunning (some err500) [sampleMsg, sampleMsg]
    (by decide) (by decide)

/-- C6: `start()` on a stopped consumer clears the flag and issues exactly
one fetch, changing nothing else; `start()` on a running consumer is a
strict no-op (state unchanged, no fetch, no signal). -/
theorem c6_start_idempotent : ∀ s : LoopState,
    (s.stopped = true →
      step s Action.start =
        ({ s with stopped := false, pendingFetch := s.pendingFetch + 1 }, [])) ∧
    (s.stopped = false → step s Action.start = (s, [])) := by
  intro s
  constructor <;> intro h <;> simp [step, h, poll]

/-- C6 (witness): `start` at the two sample states. -/
theorem c6_start_idempotent_witness :
    step sampleStopped Action.start =
      ({ sampleStopped with stopped := false, pendingFetch := 1 }, []) ∧
    step sampleRunning Action.start = (sampleRunning, []) :=
  ⟨(c6_start_idempotent sampleStopped).1 rfl, (c6_start_idempotent sampleRunning).2 rfl⟩

/-- C5: `stop()` only sets the stopped flag — outstanding fetches, timers
and in-flight batches are untouched and nothing is emitted.  While
stopped: a firing timer enters `_poll`, emits `stopped` and issues no
fetch; a draining batch emits `response_processed` then `stopped` and
issues no fetch; and no action except `start` ever issues a fetch or
clears the flag. -/
theorem c5_stop_semantics : ∀ s : LoopState,
    step s Action.stop = ({ s with stopped := true }, []) ∧
    (s.stopped = true →
      (∀ i : Nat, s.timers.get? i ≠ none →
        step s (Action.fireTimer i) =
          ({ s with timers := s.timers.eraseIdx i }, [Event.stopped])) ∧
      (∀ b n, s.batches.get? b = some n → n ≤ 1 →
        step s (Action.resolveMessage b) =
          ({ s with batches := s.batches.eraseIdx b },
            [Event.response_processed, Event.stopped])) ∧
      (∀ a : Action, a ≠ Action.start →
        (step s a).1.stopped = true ∧ (step s a).1.pendingFetch ≤ s.pendingFetch)) := by
  intro s
  refine ⟨rfl, fun hs => ⟨?_, ?_, ?_⟩⟩
  · intro i hi
    rcases Option.ne_none_iff_exists'.mp hi with ⟨d, hd⟩
    have h2 : ({ s with timers := s.timers.eraseIdx i } : LoopState).stopped = true := hs
    simp only [step, fireTimerStep, hd, poll_of_stopped _ h2]
  · intro b n hb hn
    have h2 : ({ s with batches := s.batches.eraseIdx b } : LoopState).stopped = true := hs
    simp only [step, resolveMessageStep, hb]
    rw [if_pos hn, poll_of_stopped _ h2]
  · intro a ha
    cases a with
    | start => exact absurd rfl ha
    | stop => exact ⟨rfl, Nat.le_refl _⟩
    | fetchComplete err resp =>
        simp only [step]
        by_cases hp : s.pendingFetch > 0
        · rw [if_pos hp]
          have h := handleQSR_preserves { s with pendingFetch := s.pendingFetch - 1 } err resp
          exact ⟨h.2.trans hs, h.1.le.trans (Nat.sub_le _ _)⟩
        · rw [if_neg hp]; exact ⟨hs, Nat.le_refl _⟩
    | resolveMessage b =>
        simp only [step]
        cases hb : s.batches.get? b with
        | none =>
            simp only [resolveMessageStep, hb]
            exact ⟨hs, Nat.le_refl _⟩
        | some n =>
            rw [resolveMessageStep_some s b n hb]
            by_cases hn : n ≤ 1
            · have h2 : ({ s with batches := s.batches.eraseIdx b } : LoopState).stopped = true :=
                hs
              rw [if_pos hn, poll_of_stopped _ h2]
              exact ⟨hs, Nat.le_refl _⟩
            · rw [if_neg hn]; exact ⟨hs, Nat.le_refl _⟩
    | fireTimer i =>
        simp only [step, fireTimerStep]
        cases hd : s.timers.get? i with
        | none => exact ⟨hs, Nat.le_refl _⟩
        | some d =>
            have h2 : ({ s with timers := s.timers.eraseIdx i } : LoopState).stopped = true := hs
            rw [poll_of_stopped _ h2]
            exact ⟨hs, Nat.le_refl _⟩

/-- C5 (witness): `stop` on the running sample only flips the flag; a
timer firing on the stopped sample emits `stopped` and fetches nothing;
`stop` while stopped keeps the consumer stopped. -/
theorem c5_stop_semantics_witness :
    step sampleRunning Action.stop = ({ sampleRunning with stopped := true }, []) ∧
    step sampleStopped (Action.fireTimer 0) =
      ({ sampleStopped with timers := [] }, [Event.stopped]) ∧
    (step sampleStopped Action.stop).1.stopped = true := by
  refine ⟨(c5_stop_semantics sampleRunning).1, ?_,
    (((c5_stop_semantics sampleStopped).2 rfl).2.2 Action.stop (by decide)).1⟩
  exact ((c5_stop_semantics sampleStopped).2 rfl).1 0 (by decide)

/-- C3 (code_bug evidence): the invariant fails on the code.  From a
freshly constructed consumer, the call sequence `start(); stop(); start()`
— the second `start` issued while the first fetch is still outstanding —
leaves TWO `getMessages` calls in flight at once: `stop` only sets the
flag and `start` re-polls unconditionally whenever the flag is set, with
no guard for an outstanding fetch or pending timer (the constructor's
unused `isWaiting` field suggests such a guard was intended). -/
theorem c3_stop_start_duplicates_fetch :
    (initialLoopState sampleConfig).pendingFetch = 0 ∧
    (run (initialLoopState sampleConfig) [Action.start, Action.stop, Action.start]).1.pendingFetch
      = 2 :=
  ⟨rfl, rfl⟩

theorem run_append (s : LoopState) (l1 l2 : List Action) :
    run s (l1 ++ l2) =
      ((run (run s l1).1 l2).1, (run s l1).2 ++ (run (run s l1).1 l2).2) := by
  induction l1 generalizing s with
  | nil => simp [run]
  | cons a l ih => simp [run, ih]

theorem runResolveBelow : ∀ (k m : Nat) (s : LoopState), s.batches = [m + 1] → k ≤ m →
    run s (List.replicate k (Action.resolveMessage 0)) =
      ({ s with batches := [m + 1 - k] }, []) := by
  intro k
  induction k with
  | zero =>
      intro m s hb _
      show (s, []) = ({ s with batches := [m + 1 - 0] }, [])
      rw [Nat.sub_zero, ← hb]
  | succ k ih =>
      intro m s hb hk
      obtain ⟨m', rfl⟩ : ∃ m', m = m' + 1 := ⟨m - 1, by omega⟩
      have hget : s.batches.get? 0 = some (m' + 2) := by rw [hb]; rfl
      rw [List.replicate_succ]
      simp only [run, step]
      rw [resolveMessageStep_some s 0 (m' + 2) hget, if_neg (by omega)]
      have hb1 : (({ s with batches := s.batches.set 0 (m' + 2 - 1) }) : LoopState).batches
          = [m' + 1] := by
        rw [hb]; rfl
      rw [ih m' _ hb1 (by omega)]
      have harith : m' + 1 + 1 - (k + 1) = m' + 1 - k := by omega
      rw [harith]
      rfl

/-- C4: each dispatched message resolves exactly once — `_processMessage`
emits exactly one terminal outcome (`error`, `processing_error` or
`message_processed`) per message — and a batch of `n + 1` in-flight
messages emits nothing at the loop level until its last message resolves:
after any `k ≤ n` resolutions nothing has been emitted and the counter
reads `n + 1 - k`, and the `(n + 1)`-st resolution emits one single
`response_processed` and immediately issues the next fetch, with no timer
and no other state change. -/
theorem c4_batch_barrier :
    (∀ (m : Msg) (h : HandlerOutcome) (d : Option JSError),
      (processMessage m h d).2.countP isTerminalOutcome = 1) ∧
    (∀ (n : Nat) (s : LoopState), s.stopped = false → s.batches = [n + 1] →
      (run s (List.replicate (n + 1) (Action.resolveMessage 0)) =
        ({ s with batches := [], pendingFetch := s.pendingFetch + 1 },
          [Event.response_processed])) ∧
      (∀ k, k ≤ n → run s (List.replicate k (Action.resolveMessage 0)) =
        ({ s with batches := [n + 1 - k] }, []))) := by
  constructor
  · intro m h d
    cases h <;> cases d <;>
      simp only [processMessage, deleteMessage] <;>
      first
        | rfl
        | (split <;> rfl)
  · intro n s hs hb
    refine ⟨?_, fun k hk => runResolveBelow k n s hb hk⟩
    have h1 : n + 1 - n = 1 := by omega
    rw [List.replicate_succ', run_append, runResolveBelow n n s hb (Nat.le_refl n), h1]
    have hget1 : (({ s with batches := [1] }) : LoopState).batches.get? 0 = some 1 := rfl
    simp only [run, step]
    rw [resolveMessageStep_some _ 0 1 hget1, if_pos (Nat.le_refl 1)]
    simp only [poll]
    rw [if_neg (by simp [hs])]
    rfl

/-- C4 (witness): with a batch of 3 in flight, two resolutions emit
nothing and the third emits one `response_processed` and issues the next
fetch at once; `_processMessage` on a succeeding handler emits exactly one
terminal outcome. -/
theorem c4_batch_barrier_witness :
    (processMessage sampleMsg HandlerOutcome.hOk none).2.countP isTerminalOutcome = 1 ∧
    run sampleBatchState (List.replicate 3 (Action.resolveMessage 0)) =
      ({ sampleBatchState with batches := [], pendingFetch := 1 },
        [Event.response_processed]) ∧
    run sampleBatchState (List.replicate 2 (Action.resolveMessage 0)) =
      ({ sampleBatchState with batches := [1] }, []) := by
  refine ⟨c4_batch_barrier.1 sampleMsg HandlerOutcome.hOk none, ?_, ?_⟩
  · exact (c4_batch_barrier.2 2 sampleBatchState rfl rfl).1
  · exact (c4_batch_barrier.2 2 sampleBatchState rfl rfl).2 2 (by decide)

end AzureQueueConsumer
